import Mathlib

/-!
Verification of the recipe-document service (function_app.py, main.py).

The development shallowly embeds the data model, the Cosmos-backed recipe
lookup, the per-recipe instruction synthesis loop, the two document
renderers (PDF and Word), the durable orchestrator and the HTTP front door,
and proves the frozen behavioural claims about them.
-/

/-! ## Data model (section 3 of the spec, mirrored from the source) -/

/-- One ingredient entry of a recipe. Monetary values are modelled as an
exact number of cents, so that the two-decimal rendering of the source is
captured exactly. -/
structure Ingredient where
  ingredient : String
  recipe_amount : String
  unit_cost : Nat
  total_cost : Nat
deriving DecidableEq, Repr

/-- The `data` payload of a recipe record. -/
structure RecipeData where
  servings : Nat
  total_cost : Nat
  cost_per_serving : Nat
  ingredients : List Ingredient
deriving DecidableEq, Repr

/-- A stored recipe record: a name plus its data payload. -/
structure Recipe where
  name : String
  data : RecipeData
deriving DecidableEq, Repr

/-- The structured instruction object synthesized per recipe. The timing
mapping is an insertion-ordered association list, as a Python dict is. -/
structure AIInstructions where
  preparation_steps : List String
  cooking_tips : List String
  timing : List (String × String)
  techniques : List String
  storage : String
  serving : String
deriving DecidableEq, Repr

/-- A user document in the store: its `id` and its `recipes` mapping from
an inventory key to an ordered list of recipe records. -/
structure UserDoc where
  id : String
  recipes : List (String × List Recipe)
deriving DecidableEq, Repr

/-! ## String formatting helpers used by both renderers -/

/-- Python `str.upper`, modelled as an ASCII character-wise upper-casing of
the character sequence. -/
def upper (s : String) : String := ⟨s.data.map Char.toUpper⟩

/-- The f-string fragment `${x:.2f}` of the source, on a value held as
cents: a dollar sign, the integer part, a dot, and exactly the two
fractional digits. -/
def fmtMoney (cents : Nat) : String :=
  "$" ++ Nat.repr (cents / 100) ++ "." ++
    String.mk [Nat.digitChar (cents % 100 / 10), Nat.digitChar (cents % 100 % 10)]

/-! ## Recipe Lookup (GetRecipes activity, function_app.py lines 163-193) -/

/-- The `GetRecipes` activity. The store is the list of documents the
Cosmos query `SELECT * FROM c WHERE c.id = @id` ranges over; the code takes
the first matching document, reads its recipes mapping at key
`inventory-items-<user_id>`, filters by the requested names when the
request list is non-empty, and returns the (possibly empty) result. -/
def GetRecipes (store : List UserDoc) (user_id : String) (recipe_ids : List String) :
    List Recipe :=
  match store.filter (fun d => d.id == user_id) with
  | [] => []
  | user_doc :: _ =>
    match user_doc.recipes.lookup ("inventory-items-" ++ user_id) with
    | none => []
    | some stored =>
      let recipes := if recipe_ids.isEmpty then stored
        else stored.filter (fun r => r.name ∈ recipe_ids)
      if recipes.isEmpty then [] else recipes

/-- The recipe collection stored for a user: the inventory list of the
first document the query returns, or empty when there is no document or no
inventory entry. -/
def storedRecipes (store : List UserDoc) (user_id : String) : List Recipe :=
  match store.filter (fun d => d.id == user_id) with
  | [] => []
  | user_doc :: _ =>
    (user_doc.recipes.lookup ("inventory-items-" ++ user_id)).getD []

lemma GetRecipes_eq_filter_storedRecipes (store : List UserDoc) (user_id : String)
    (recipe_ids : List String) (h : recipe_ids ≠ []) :
    GetRecipes store user_id recipe_ids =
      (storedRecipes store user_id).filter (fun r => r.name ∈ recipe_ids) := by
  unfold GetRecipes storedRecipes
  cases store.filter (fun d => d.id == user_id) with
  | nil => simp
  | cons user_doc rest =>
    cases hl : user_doc.recipes.lookup ("inventory-items-" ++ user_id) with
    | none => simp [hl]
    | some stored =>
      have hids : recipe_ids.isEmpty = false := by
        cases recipe_ids with
        | nil => exact absurd rfl h
        | cons a l => rfl
      simp only [hl, hids, Bool.false_eq_true, if_false, Option.getD_some]
      split <;> simp_all

example :
    GetRecipes [⟨"u1", [("inventory-items-u1",
        [⟨"A", ⟨1, 0, 0, []⟩⟩, ⟨"B", ⟨1, 0, 0, []⟩⟩, ⟨"C", ⟨1, 0, 0, []⟩⟩])]⟩]
      "u1" ["C", "A"] = [⟨"A", ⟨1, 0, 0, []⟩⟩, ⟨"C", ⟨1, 0, 0, []⟩⟩] := by decide

example :
    GetRecipes [⟨"u1", [("inventory-items-u1", [⟨"A", ⟨1, 0, 0, []⟩⟩])]⟩]
      "u1" [] = [⟨"A", ⟨1, 0, 0, []⟩⟩] := by decide

/-! ## Document renderers (main.py) -/

/-- An abstract flowable or block element of an output document: a page
break, a styled paragraph, a spacer, or a table given by its cell texts. -/
inductive DocElem where
  | pageBreak : DocElem
  | par : String → String → DocElem
  | spacer : DocElem
  | table : List (List String) → DocElem
deriving DecidableEq, Repr

/-- The rows of the recipe information table (identical cell texts in both
renderers). -/
def infoRows (info : RecipeData) : List (List String) :=
  [["Servings", Nat.repr info.servings],
   ["Total Cost", fmtMoney info.total_cost],
   ["Cost per Serving", fmtMoney info.cost_per_serving]]

/-- One body row of the ingredients table. -/
def ingredientRow (ing : Ingredient) : List String :=
  [upper ing.ingredient, upper ing.recipe_amount,
   fmtMoney ing.unit_cost, fmtMoney ing.total_cost]

/-- The ingredients table: the fixed header row followed by one row per
ingredient, in order. -/
def ingredientRows (ings : List Ingredient) : List (List String) :=
  ["INGREDIENT", "AMOUNT", "COST PER UNIT", "TOTAL COST"] :: ings.map ingredientRow

/-- The flowables the PDF renderer appends for the optional AI-instruction
block of one recipe (main.py lines 157-182). -/
def pdfAiBlock (a : AIInstructions) : List DocElem :=
  [DocElem.par "Preparation Method" "Section"]
    ++ (List.enumFrom 1 a.preparation_steps).map
        (fun p => DocElem.par (Nat.repr p.1 ++ ". " ++ p.2) "Normal")
    ++ [DocElem.spacer]
    ++ [DocElem.par "Cooking Tips" "Section"]
    ++ a.cooking_tips.map (fun tip => DocElem.par ("• " ++ tip) "Normal")
    ++ [DocElem.spacer]
    ++ [DocElem.par "Timing" "Section"]
    ++ a.timing.map (fun p => DocElem.par ("• " ++ p.1 ++ ": " ++ p.2) "Normal")
    ++ [DocElem.spacer]
    ++ [DocElem.par "Storage" "Section", DocElem.par a.storage "Normal", DocElem.spacer,
        DocElem.par "Serving Suggestions" "Section", DocElem.par a.serving "Normal"]

/-- The flowables of one recipe section in the PDF story, page break
excluded (main.py lines 112-182). An absent or empty instructions dict is
falsy in the source and is modelled as `none`. -/
def pdfSection (recipe : Recipe) (ai : Option AIInstructions) : List DocElem :=
  [DocElem.par recipe.name "CustomTitle", DocElem.spacer,
   DocElem.table (infoRows recipe.data), DocElem.spacer,
   DocElem.par "Ingredients" "Section",
   DocElem.table (ingredientRows recipe.data.ingredients), DocElem.spacer]
    ++ (match ai with
        | none => []
        | some a => pdfAiBlock a)

/-- The loop of `create_recipe_pdf`: one section per zipped pair, with a
page break prepended from the second iteration on (`if idx > 0`). -/
def pdfStory : List (Recipe × Option AIInstructions) → Nat → List DocElem
  | [], _ => []
  | p :: rest, idx =>
    (if idx > 0 then [DocElem.pageBreak] else []) ++ pdfSection p.1 p.2
      ++ pdfStory rest (idx + 1)

/-- The PDF generator holds only styles, no document content. -/
structure PDFGenerator where
deriving DecidableEq, Repr

/-- `PDFGenerator.create_recipe_pdf`: builds a fresh local story from the
zipped argument lists and writes it out; the generator instance is
unchanged. The returned list is the document content written to the output
path. -/
def PDFGenerator.create_recipe_pdf (g : PDFGenerator) (recipe_list : List Recipe)
    (ai_instructions_list : List (Option AIInstructions)) :
    PDFGenerator × List DocElem :=
  (g, pdfStory (recipe_list.zip ai_instructions_list) 0)

/-- The blocks the Word renderer appends for the optional AI-instruction
block of one recipe (main.py lines 256-280). Plain body paragraphs carry
the empty style name. -/
def docxAiBlock (a : AIInstructions) : List DocElem :=
  [DocElem.par "Preparation Method" "CustomHeading"]
    ++ (List.enumFrom 1 a.preparation_steps).map
        (fun p => DocElem.par (Nat.repr p.1 ++ ". " ++ p.2) "")
    ++ [DocElem.par "" ""]
    ++ [DocElem.par "Cooking Tips" "CustomHeading"]
    ++ a.cooking_tips.map (fun tip => DocElem.par ("• " ++ tip) "")
    ++ [DocElem.par "" ""]
    ++ [DocElem.par "Timing" "CustomHeading"]
    ++ a.timing.map (fun p => DocElem.par ("• " ++ p.1 ++ ": " ++ p.2) "")
    ++ [DocElem.par "" ""]
    ++ [DocElem.par "Storage" "CustomHeading", DocElem.par a.storage "",
        DocElem.par "Serving Suggestions" "CustomHeading", DocElem.par a.serving ""]

/-- One recipe section of the Word document, page break excluded (main.py
lines 211-280). -/
def docxSection (recipe : Recipe) (ai : Option AIInstructions) : List DocElem :=
  [DocElem.par recipe.name "CustomTitle", DocElem.par "" "",
   DocElem.table (infoRows recipe.data), DocElem.par "" "",
   DocElem.par "INGREDIENTS" "CustomHeading",
   DocElem.table (ingredientRows recipe.data.ingredients), DocElem.par "" ""]
    ++ (match ai with
        | none => []
        | some a => docxAiBlock a)

/-- The loop of `create_recipe_docx`: the blocks appended to the document
held by the generator instance, with a page break from the second zipped
pair on. -/
def docxStory : List (Recipe × Option AIInstructions) → Nat → List DocElem
  | [], _ => []
  | p :: rest, idx =>
    (if idx > 0 then [DocElem.pageBreak] else []) ++ docxSection p.1 p.2
      ++ docxStory rest (idx + 1)

/-- The Word generator holds the document created in `__init__` as
instance state. -/
structure WordGenerator where
  doc : List DocElem
deriving DecidableEq, Repr

/-- A freshly constructed `WordGenerator`: an empty document (the style
setup adds styles, not content). -/
def WordGenerator.init : WordGenerator := ⟨[]⟩

/-- `WordGenerator.create_recipe_docx`: appends the sections of this call
to the document held by the instance and saves the whole document to the
output path. Returns the updated instance and the saved content. -/
def WordGenerator.create_recipe_docx (g : WordGenerator) (recipe_list : List Recipe)
    (ai_instructions_list : List (Option AIInstructions)) :
    WordGenerator × List DocElem :=
  let d := g.doc ++ docxStory (recipe_list.zip ai_instructions_list) 0
  (⟨d⟩, d)

/-! ## Specification-side renderer vocabulary -/

/-- Sections joined with exactly one page break between consecutive
sections and none before the first or after the last. -/
def sepByPageBreak : List (List DocElem) → List DocElem
  | [] => []
  | [s] => s
  | s :: t :: rest => s ++ DocElem.pageBreak :: sepByPageBreak (t :: rest)

lemma sepByPageBreak_cons (s : List DocElem) (rest : List (List DocElem)) :
    sepByPageBreak (s :: rest) =
      s ++ (rest.map (fun t => DocElem.pageBreak :: t)).flatten := by
  induction rest generalizing s with
  | nil => simp [sepByPageBreak]
  | cons t rest ih => simp [sepByPageBreak, ih t]

lemma pdfStory_pos (l : List (Recipe × Option AIInstructions)) (n : Nat) :
    pdfStory l (n + 1) =
      (l.map (fun p => DocElem.pageBreak :: pdfSection p.1 p.2)).flatten := by
  induction l generalizing n with
  | nil => simp [pdfStory]
  | cons p rest ih => simp [pdfStory, ih (n + 1)]

lemma pdfStory_zero (l : List (Recipe × Option AIInstructions)) :
    pdfStory l 0 = sepByPageBreak (l.map (fun p => pdfSection p.1 p.2)) := by
  cases l with
  | nil => rfl
  | cons p rest =>
    simp [pdfStory, pdfStory_pos, sepByPageBreak_cons, List.map_map, Function.comp_def]

lemma docxStory_pos (l : List (Recipe × Option AIInstructions)) (n : Nat) :
    docxStory l (n + 1) =
      (l.map (fun p => DocElem.pageBreak :: docxSection p.1 p.2)).flatten := by
  induction l generalizing n with
  | nil => simp [docxStory]
  | cons p rest ih => simp [docxStory, ih (n + 1)]

lemma docxStory_zero (l : List (Recipe × Option AIInstructions)) :
    docxStory l 0 = sepByPageBreak (l.map (fun p => docxSection p.1 p.2)) := by
  cases l with
  | nil => rfl
  | cons p rest =>
    simp [docxStory, docxStory_pos, sepByPageBreak_cons, List.map_map, Function.comp_def]

lemma pageBreak_not_mem_pdfSection (r : Recipe) (ai : Option AIInstructions) :
    DocElem.pageBreak ∉ pdfSection r ai := by
  cases ai with
  | none => simp [pdfSection]
  | some a =>
    simp [pdfSection, pdfAiBlock, List.mem_append, List.mem_map]

lemma pageBreak_not_mem_docxSection (r : Recipe) (ai : Option AIInstructions) :
    DocElem.pageBreak ∉ docxSection r ai := by
  cases ai with
  | none => simp [docxSection]
  | some a =>
    simp [docxSection, docxAiBlock, List.mem_append, List.mem_map]

/-! ## GenerateDocuments activity (function_app.py lines 195-241) -/

/-- The instruction-synthesis loop of `GenerateDocuments` (lines 210-217):
starting from an empty list, one `generate_instructions` call per recipe in
list order, each on the recipe name and ingredient list, appending the
result. Returns the accumulated results together with the ordered trace of
calls made to the synthesizer. -/
def instructionsRun (gen : String → List Ingredient → AIInstructions)
    (recipes : List Recipe) : List AIInstructions × List (String × List Ingredient) :=
  recipes.foldl
    (fun acc r =>
      (acc.1 ++ [gen r.name r.data.ingredients], acc.2 ++ [(r.name, r.data.ingredients)]))
    ([], [])

lemma instructionsRun_foldl (gen : String → List Ingredient → AIInstructions)
    (recipes : List Recipe) (a : List AIInstructions)
    (c : List (String × List Ingredient)) :
    recipes.foldl
      (fun acc r =>
        (acc.1 ++ [gen r.name r.data.ingredients], acc.2 ++ [(r.name, r.data.ingredients)]))
      (a, c) =
      (a ++ recipes.map (fun r => gen r.name r.data.ingredients),
       c ++ recipes.map (fun r => (r.name, r.data.ingredients))) := by
  induction recipes generalizing a c with
  | nil => simp
  | cons r rest ih => simp [ih]

lemma instructionsRun_eq (gen : String → List Ingredient → AIInstructions)
    (recipes : List Recipe) :
    instructionsRun gen recipes =
      (recipes.map (fun r => gen r.name r.data.ingredients),
       recipes.map (fun r => (r.name, r.data.ingredients))) := by
  simpa using instructionsRun_foldl gen recipes [] []

/-- An externally visible filesystem action of the `GenerateDocuments`
scratch phase. -/
inductive RunEvent where
  | mkTemp : RunEvent
  | writeDoc : RunEvent
  | readDoc : RunEvent
  | rmTemp : RunEvent
deriving DecidableEq, Repr

/-- Python `try ... finally`: the cleanup actions run after the body, on
the normal path and the exception path alike, and the body result or
exception is then propagated. -/
def runWithCleanup (body : List RunEvent × Except String (List (String × String)))
    (cleanup : List RunEvent) :
    List RunEvent × Except String (List (String × String)) :=
  (body.1 ++ cleanup, body.2)

/-- The body of the `try` block (lines 222-234): render the requested
format into the scratch path, then read the file back and return the
encoded payload under the format key. A rendering failure raises before
the file is written; a read failure raises after. -/
def renderAndRead (format_type : String) (renderResult : Except String Unit)
    (readResult : Except String String) :
    List RunEvent × Except String (List (String × String)) :=
  match renderResult with
  | Except.error e => ([], Except.error e)
  | Except.ok () =>
    match readResult with
    | Except.error e => ([RunEvent.writeDoc], Except.error e)
    | Except.ok bytes =>
      ([RunEvent.writeDoc, RunEvent.readDoc],
       Except.ok [(if format_type == "pdf" then "pdf" else "docx", bytes)])

/-- The scratch phase of `GenerateDocuments` (lines 219-237): create the
temporary directory, run the body, and remove the directory in the
`finally` clause. The event list is the ordered trace of externally
visible filesystem actions; the second component is the returned value or
the propagated exception. -/
def GenerateDocumentsScratch (format_type : String) (renderResult : Except String Unit)
    (readResult : Except String String) :
    List RunEvent × Except String (List (String × String)) :=
  let r := runWithCleanup (renderAndRead format_type renderResult readResult) [RunEvent.rmTemp]
  (RunEvent.mkTemp :: r.1, r.2)

/-! ## Workflow Coordinator (RecipeOrchestrator, function_app.py lines 124-161) -/

/-- The structured result of the orchestrator. -/
structure OrchOutput where
  success : Bool
  message : Option String
  error : Option String
  documents : Option (List (String × String))
deriving DecidableEq, Repr

/-- Orchestration input, as assembled by the front door. -/
structure OrchInput where
  user_id : String
  recipe_ids : List String
  format : String
  download : Bool
deriving DecidableEq, Repr

/-- The `RecipeOrchestrator` durable function, with the two activities as
parameters (each may raise). Returns the structured output and the ordered
list of activity calls made. An empty lookup result short-circuits; an
exception from either activity is caught and reported as a failure
output. -/
def RecipeOrchestrator (lookup : String → List String → Except String (List Recipe))
    (genDocs : String → List Recipe → String → Except String (List (String × String)))
    (input : OrchInput) : OrchOutput × List String :=
  match lookup input.user_id input.recipe_ids with
  | Except.error e => (⟨false, none, some e, none⟩, ["GetRecipes"])
  | Except.ok recipes =>
    if recipes.isEmpty then
      (⟨false, some "No recipes found", none, none⟩, ["GetRecipes"])
    else
      match genDocs input.user_id recipes input.format with
      | Except.error e => (⟨false, none, some e, none⟩, ["GetRecipes", "GenerateDocuments"])
      | Except.ok docs =>
        (⟨true, none, none, some docs⟩, ["GetRecipes", "GenerateDocuments"])

/-! ## HTTP front door (http_start, function_app.py lines 32-122) -/

/-- The parsed request body: the three fields read with `get`, where a
missing `format` is `none` (the code then defaults it to pdf). A missing
`recipe_names` defaults to the empty list, a missing `download` to false,
already folded into the field values here. -/
structure ReqBody where
  recipe_names : List String
  format : Option String
  download : Bool
deriving DecidableEq, Repr

/-- Python `str.lower`, modelled character-wise, as `upper`. -/
def lower (s : String) : String := ⟨s.data.map Char.toLower⟩

/-- Outcome of the validation part of `http_start`: an immediate error
response with its status code and error message, or the workflow started
with the assembled orchestration input. -/
inductive HttpStartResult where
  | response : Nat → String → HttpStartResult
  | started : OrchInput → HttpStartResult
deriving DecidableEq, Repr

/-- The validation and start phase of `http_start` (lines 34-85). The
route parameter is `none` when absent; an unparsable JSON body is `none`.
Checks run in source order: user id, body parse, non-empty recipe names,
format membership after lower-casing, then the orchestration is started. -/
def http_start (user_id : Option String) (body : Option ReqBody) : HttpStartResult :=
  if (user_id.getD "") == "" then
    HttpStartResult.response 400 "Please provide a user_id in the URL"
  else
    match body with
    | none => HttpStartResult.response 400 "Invalid request body"
    | some b =>
      let format_type := lower (b.format.getD "pdf")
      if b.recipe_names.isEmpty then
        HttpStartResult.response 400 "Please provide recipe_ids in the request body"
      else if format_type ≠ "pdf" ∧ format_type ≠ "docx" then
        HttpStartResult.response 400 "Format must be either 'pdf' or 'docx'"
      else
        HttpStartResult.started ⟨user_id.getD "", b.recipe_names, format_type, b.download⟩

/-! ## Formatting lemmas -/

lemma char_isLower_iff (c : Char) : c.isLower = true ↔ 97 ≤ c.toNat ∧ c.toNat ≤ 122 := by
  simp [Char.isLower, Char.toNat, UInt32.le_def, BitVec.le_def, UInt32.toNat]

lemma digitChar_isDigit {d : Nat} (h : d < 10) : (Nat.digitChar d).isDigit = true := by
  interval_cases d <;> decide

lemma toUpper_not_isLower (c : Char) : (Char.toUpper c).isLower = false := by
  unfold Char.toUpper
  dsimp only
  split
  case isTrue h =>
    obtain ⟨h1, h2⟩ := h
    generalize hm : Char.toNat c - 32 = m
    have h3 : 65 ≤ m := by omega
    have h4 : m ≤ 90 := by omega
    interval_cases m <;> decide
  case isFalse h =>
    rw [Bool.eq_false_iff]
    intro hl
    rw [char_isLower_iff] at hl
    exact h ⟨hl.1, hl.2⟩

lemma upper_no_lowercase (s : String) : ∀ c ∈ (upper s).data, c.isLower = false := by
  intro c hc
  simp only [upper, List.mem_map] at hc
  obtain ⟨c₀, _, rfl⟩ := hc
  exact toUpper_not_isLower c₀

lemma toDigitsCore_digits (f n : Nat) (acc : List Char)
    (hacc : ∀ c ∈ acc, c.isDigit = true) :
    ∀ c ∈ Nat.toDigitsCore 10 f n acc, c.isDigit = true := by
  induction f generalizing n acc with
  | zero => simpa [Nat.toDigitsCore] using hacc
  | succ f ih =>
    unfold Nat.toDigitsCore
    dsimp only
    intro c hc
    split at hc
    · rcases List.mem_cons.mp hc with rfl | hc
      · exact digitChar_isDigit (Nat.mod_lt _ (by norm_num))
      · exact hacc c hc
    · refine ih (n / 10) (Nat.digitChar (n % 10) :: acc) ?_ c hc
      intro c hc
      rcases List.mem_cons.mp hc with rfl | hc
      · exact digitChar_isDigit (Nat.mod_lt _ (by norm_num))
      · exact hacc c hc

lemma repr_digits (n : Nat) : ∀ c ∈ (Nat.repr n).data, c.isDigit = true := by
  simpa [Nat.repr, Nat.toDigits, List.asString] using
    toDigitsCore_digits (n + 1) n [] (by simp)

/-- A string renders a currency amount: a leading dollar sign, an integer
part made of digits, then a dot and exactly two fractional digits (so the
dot before the two digits is the only one). -/
def isCurrency (s : String) : Prop :=
  ∃ intPart d₁ d₂, s = "$" ++ intPart ++ "." ++ String.mk [d₁, d₂]
    ∧ (∀ c ∈ intPart.data, c.isDigit = true)
    ∧ d₁.isDigit = true ∧ d₂.isDigit = true

lemma fmtMoney_isCurrency (cents : Nat) : isCurrency (fmtMoney cents) :=
  ⟨Nat.repr (cents / 100), Nat.digitChar (cents % 100 / 10), Nat.digitChar (cents % 100 % 10),
   rfl, repr_digits _, digitChar_isDigit (by omega), digitChar_isDigit (by omega)⟩

/-! ## Specification-side vocabulary for the instruction blocks -/

/-- The five headed blocks driven by the AI instructions. -/
def blockTitles : List String :=
  ["Preparation Method", "Cooking Tips", "Timing", "Storage", "Serving Suggestions"]

/-- A PDF section contains the headed block `t`: its heading paragraph, in
the heading style the PDF renderer gives block headings. -/
def pdfHasBlock (elems : List DocElem) (t : String) : Prop :=
  DocElem.par t "Section" ∈ elems

/-- A Word section contains the headed block `t`: its heading paragraph,
in the heading style the Word renderer gives block headings. -/
def docxHasBlock (elems : List DocElem) (t : String) : Prop :=
  DocElem.par t "CustomHeading" ∈ elems

/-! ## Claim theorems -/

/-- C1 (amended): for every user id and every non-empty request list,
GetRecipes returns exactly the ordered subset of the stored recipes whose
name appears in the request list, in stored order, and never a recipe
whose name is absent from it; the result is the empty list (not an error)
when there is no stored document, no stored recipes, or no match. With an
empty request list the source skips the filter and returns all stored
recipes, so the non-emptiness hypothesis is necessary. -/
theorem getRecipes_requested_subset (store : List UserDoc) (user_id : String)
    (recipe_ids : List String) (h : recipe_ids ≠ []) :
    GetRecipes store user_id recipe_ids =
      (storedRecipes store user_id).filter (fun r => r.name ∈ recipe_ids)
    ∧ ∀ r ∈ GetRecipes store user_id recipe_ids, r.name ∈ recipe_ids := by
  refine ⟨GetRecipes_eq_filter_storedRecipes store user_id recipe_ids h, ?_⟩
  intro r hr
  rw [GetRecipes_eq_filter_storedRecipes store user_id recipe_ids h] at hr
  simpa using (List.mem_filter.mp hr).2

/-- Witness for C1 at a concrete store: the user has recipes A and C, the
request asks for B and A, and exactly A comes back. -/
theorem getRecipes_requested_subset_witness :
    (["B", "A"] : List String) ≠ []
    ∧ (GetRecipes
        [⟨"u", [("inventory-items-u", [⟨"A", ⟨1, 100, 50, []⟩⟩, ⟨"C", ⟨2, 0, 0, []⟩⟩])]⟩]
        "u" ["B", "A"]
        = (storedRecipes
            [⟨"u", [("inventory-items-u", [⟨"A", ⟨1, 100, 50, []⟩⟩, ⟨"C", ⟨2, 0, 0, []⟩⟩])]⟩]
            "u").filter (fun r => r.name ∈ (["B", "A"] : List String))
       ∧ ∀ r ∈ GetRecipes
            [⟨"u", [("inventory-items-u", [⟨"A", ⟨1, 100, 50, []⟩⟩, ⟨"C", ⟨2, 0, 0, []⟩⟩])]⟩]
            "u" ["B", "A"], r.name ∈ (["B", "A"] : List String)) :=
  ⟨by decide, getRecipes_requested_subset _ _ _ (by decide)⟩

/-- Counterexample to C1 as frozen: with an empty request list the source
skips the name filter (the list is falsy), so a stored recipe whose name is
in no request list is returned anyway. -/
theorem getRecipes_empty_request_counterexample :
    GetRecipes [⟨"u", [("inventory-items-u", [⟨"A", ⟨1, 0, 0, []⟩⟩])]⟩] "u" []
      = [⟨"A", ⟨1, 0, 0, []⟩⟩]
    ∧ ("A" : String) ∉ ([] : List String) :=
  ⟨by decide, by simp⟩

/-- C3: the instruction loop of GenerateDocuments calls the synthesizer
exactly once per recipe, sequentially in list order (the call trace is the
list of name-ingredients pairs in order), and accumulates a same-length
result list whose i-th entry is produced from the i-th recipe. -/
theorem instructions_once_per_recipe_in_order
    (gen : String → List Ingredient → AIInstructions) (recipes : List Recipe) :
    (instructionsRun gen recipes).2 = recipes.map (fun r => (r.name, r.data.ingredients))
    ∧ (instructionsRun gen recipes).1.length = recipes.length
    ∧ ∀ i : Nat, (instructionsRun gen recipes).1[i]? =
        (recipes[i]?).map (fun r => gen r.name r.data.ingredients) := by
  refine ⟨?_, ?_, ?_⟩
  · rw [instructionsRun_eq]
  · rw [instructionsRun_eq]
    simp
  · intro i
    rw [instructionsRun_eq]
    simp [List.getElem?_map]

/-- A freshly constructed PDF generator, as GenerateDocuments makes one. -/
def PDFGenerator.init : PDFGenerator := ⟨⟩

/-- The per-pair PDF sections of a render call. -/
def pdfSections (rs : List Recipe) (ais : List (Option AIInstructions)) :
    List (List DocElem) :=
  (rs.zip ais).map (fun p => pdfSection p.1 p.2)

/-- The per-pair Word sections of a render call. -/
def docxSections (rs : List Recipe) (ais : List (Option AIInstructions)) :
    List (List DocElem) :=
  (rs.zip ais).map (fun p => docxSection p.1 p.2)

/-- C2: on paired input lists, each renderer emits one section per recipe
in input order, the sections are joined with exactly one explicit page
break between consecutive sections and none before the first or after the
last, and no section contains a page break of its own. -/
theorem renderers_one_section_per_recipe (rs : List Recipe)
    (ais : List (Option AIInstructions)) (h : rs.length = ais.length) :
    ((PDFGenerator.init.create_recipe_pdf rs ais).2 = sepByPageBreak (pdfSections rs ais)
      ∧ (pdfSections rs ais).length = rs.length
      ∧ ∀ s ∈ pdfSections rs ais, DocElem.pageBreak ∉ s)
    ∧ ((WordGenerator.init.create_recipe_docx rs ais).2 = sepByPageBreak (docxSections rs ais)
      ∧ (docxSections rs ais).length = rs.length
      ∧ ∀ s ∈ docxSections rs ais, DocElem.pageBreak ∉ s) := by
  refine ⟨⟨?_, ?_, ?_⟩, ⟨?_, ?_, ?_⟩⟩
  · simp [PDFGenerator.create_recipe_pdf, pdfStory_zero, pdfSections]
  · simp [pdfSections, List.length_zip, h]
  · intro s hs
    simp only [pdfSections, List.mem_map] at hs
    obtain ⟨p, _, rfl⟩ := hs
    exact pageBreak_not_mem_pdfSection p.1 p.2
  · simp [WordGenerator.create_recipe_docx, WordGenerator.init, docxStory_zero, docxSections]
  · simp [docxSections, List.length_zip, h]
  · intro s hs
    simp only [docxSections, List.mem_map] at hs
    obtain ⟨p, _, rfl⟩ := hs
    exact pageBreak_not_mem_docxSection p.1 p.2

/-- Witness for C2 at one concrete recipe paired with no instructions. -/
theorem renderers_one_section_per_recipe_witness :
    ([⟨"A", ⟨1, 0, 0, []⟩⟩] : List Recipe).length
        = ([none] : List (Option AIInstructions)).length
    ∧ (((PDFGenerator.init.create_recipe_pdf [⟨"A", ⟨1, 0, 0, []⟩⟩] [none]).2
          = sepByPageBreak (pdfSections [⟨"A", ⟨1, 0, 0, []⟩⟩] [none])
        ∧ (pdfSections [⟨"A", ⟨1, 0, 0, []⟩⟩] [none]).length
          = ([⟨"A", ⟨1, 0, 0, []⟩⟩] : List Recipe).length
        ∧ ∀ s ∈ pdfSections [⟨"A", ⟨1, 0, 0, []⟩⟩] [none], DocElem.pageBreak ∉ s)
      ∧ ((WordGenerator.init.create_recipe_docx [⟨"A", ⟨1, 0, 0, []⟩⟩] [none]).2
          = sepByPageBreak (docxSections [⟨"A", ⟨1, 0, 0, []⟩⟩] [none])
        ∧ (docxSections [⟨"A", ⟨1, 0, 0, []⟩⟩] [none]).length
          = ([⟨"A", ⟨1, 0, 0, []⟩⟩] : List Recipe).length
        ∧ ∀ s ∈ docxSections [⟨"A", ⟨1, 0, 0, []⟩⟩] [none], DocElem.pageBreak ∉ s)) :=
  ⟨rfl, renderers_one_section_per_recipe _ _ rfl⟩

/-- C9: on input lists of different lengths both renderers silently zip,
rendering exactly min(len(recipes), len(instructions)) sections joined by
single page breaks, with the trailing elements of the longer list
ignored and no error raised (the render functions are total). -/
theorem renderers_truncate_to_min (rs : List Recipe)
    (ais : List (Option AIInstructions)) :
    (PDFGenerator.init.create_recipe_pdf rs ais).2 = sepByPageBreak (pdfSections rs ais)
    ∧ (pdfSections rs ais).length = min rs.length ais.length
    ∧ (WordGenerator.init.create_recipe_docx rs ais).2 = sepByPageBreak (docxSections rs ais)
    ∧ (docxSections rs ais).length = min rs.length ais.length := by
  refine ⟨?_, ?_, ?_, ?_⟩
  · simp [PDFGenerator.create_recipe_pdf, pdfStory_zero, pdfSections]
  · simp [pdfSections, List.length_zip]
  · simp [WordGenerator.create_recipe_docx, WordGenerator.init, docxStory_zero, docxSections]
  · simp [docxSections, List.length_zip]

/-- C4: both renderers put the recipe information table and the
ingredients table into every section; the Total Cost and Cost per Serving
cells and each ingredient row cost cells are currency strings (leading
dollar sign, exactly two fractional digits), and each ingredient row
renders name and amount upper-cased (no lowercase ASCII letter
survives). -/
theorem sections_currency_and_uppercase (r : Recipe) (ai : Option AIInstructions) :
    (DocElem.table (infoRows r.data) ∈ pdfSection r ai
      ∧ DocElem.table (ingredientRows r.data.ingredients) ∈ pdfSection r ai
      ∧ DocElem.table (infoRows r.data) ∈ docxSection r ai
      ∧ DocElem.table (ingredientRows r.data.ingredients) ∈ docxSection r ai)
    ∧ (infoRows r.data =
        [["Servings", Nat.repr r.data.servings],
         ["Total Cost", fmtMoney r.data.total_cost],
         ["Cost per Serving", fmtMoney r.data.cost_per_serving]]
       ∧ isCurrency (fmtMoney r.data.total_cost)
       ∧ isCurrency (fmtMoney r.data.cost_per_serving))
    ∧ ingredientRows r.data.ingredients =
        ["INGREDIENT", "AMOUNT", "COST PER UNIT", "TOTAL COST"]
          :: r.data.ingredients.map (fun ing =>
            [upper ing.ingredient, upper ing.recipe_amount,
             fmtMoney ing.unit_cost, fmtMoney ing.total_cost])
    ∧ (∀ ing : Ingredient,
        isCurrency (fmtMoney ing.unit_cost) ∧ isCurrency (fmtMoney ing.total_cost)
        ∧ (∀ c ∈ (upper ing.ingredient).data, c.isLower = false)
        ∧ (∀ c ∈ (upper ing.recipe_amount).data, c.isLower = false)) := by
  refine ⟨⟨?_, ?_, ?_, ?_⟩, ⟨rfl, fmtMoney_isCurrency _, fmtMoney_isCurrency _⟩,
    rfl, fun ing => ⟨fmtMoney_isCurrency _, fmtMoney_isCurrency _,
      upper_no_lowercase _, upper_no_lowercase _⟩⟩
  · cases ai <;> simp [pdfSection]
  · cases ai <;> simp [pdfSection]
  · cases ai <;> simp [docxSection]
  · cases ai <;> simp [docxSection]

/-- C5: when the paired instructions value is absent or empty (falsy,
modelled as none) the rendered section of either renderer contains none of
the five instruction blocks and nothing in their place (the section is
exactly the instruction-free content); when it is present, all five block
headings are emitted by both renderers. -/
theorem ai_blocks_iff_instructions (r : Recipe) :
    (∀ t ∈ blockTitles,
       ¬ pdfHasBlock (pdfSection r none) t ∧ ¬ docxHasBlock (docxSection r none) t)
    ∧ (∀ a : AIInstructions, ∀ t ∈ blockTitles,
       pdfHasBlock (pdfSection r (some a)) t ∧ docxHasBlock (docxSection r (some a)) t)
    ∧ (∀ a : AIInstructions,
       pdfSection r (some a) = pdfSection r none ++ pdfAiBlock a
       ∧ docxSection r (some a) = docxSection r none ++ docxAiBlock a) := by
  refine ⟨?_, ?_, ?_⟩
  · intro t ht
    fin_cases ht <;>
      exact ⟨by simp [pdfHasBlock, pdfSection], by simp [docxHasBlock, docxSection]⟩
  · intro a t ht
    fin_cases ht <;>
      exact ⟨by simp [pdfHasBlock, pdfSection, pdfAiBlock],
             by simp [docxHasBlock, docxSection, docxAiBlock]⟩
  · intro a
    constructor <;> simp [pdfSection, docxSection]

/-- Witness for C5 at a concrete recipe, title Timing, and one concrete
instruction object. -/
theorem ai_blocks_iff_instructions_witness :
    ("Timing" ∈ blockTitles)
    ∧ (¬ pdfHasBlock (pdfSection ⟨"A", ⟨1, 0, 0, []⟩⟩ none) "Timing"
       ∧ ¬ docxHasBlock (docxSection ⟨"A", ⟨1, 0, 0, []⟩⟩ none) "Timing")
    ∧ (pdfHasBlock (pdfSection ⟨"A", ⟨1, 0, 0, []⟩⟩
          (some ⟨["s1"], ["t1"], [("prep", "5 min")], ["tech"], "cool", "warm"⟩)) "Timing"
       ∧ docxHasBlock (docxSection ⟨"A", ⟨1, 0, 0, []⟩⟩
          (some ⟨["s1"], ["t1"], [("prep", "5 min")], ["tech"], "cool", "warm"⟩)) "Timing") :=
  ⟨by decide,
   (ai_blocks_iff_instructions ⟨"A", ⟨1, 0, 0, []⟩⟩).1 "Timing" (by decide),
   (ai_blocks_iff_instructions ⟨"A", ⟨1, 0, 0, []⟩⟩).2.1
     ⟨["s1"], ["t1"], [("prep", "5 min")], ["tech"], "cool", "warm"⟩ "Timing" (by decide)⟩

/-- C6: when the lookup activity returns an empty list the orchestrator
returns exactly the failure output with message No recipes found (success
false, no error, no documents) and its activity-call trace is just the
lookup: no GenerateDocuments call, hence no synthesis and no rendering. -/
theorem orchestrator_short_circuits_on_empty
    (lookup : String → List String → Except String (List Recipe))
    (genDocs : String → List Recipe → String → Except String (List (String × String)))
    (input : OrchInput)
    (h : lookup input.user_id input.recipe_ids = Except.ok []) :
    RecipeOrchestrator lookup genDocs input =
      (⟨false, some "No recipes found", none, none⟩, ["GetRecipes"])
    ∧ "GenerateDocuments" ∉ (RecipeOrchestrator lookup genDocs input).2 := by
  constructor
  · simp [RecipeOrchestrator, h]
  · simp [RecipeOrchestrator, h]

/-- Witness for C6 with a lookup that finds nothing. -/
theorem orchestrator_short_circuits_on_empty_witness :
    ((fun (_ : String) (_ : List String) =>
        (Except.ok [] : Except String (List Recipe))) "u" ["r"] = Except.ok [])
    ∧ RecipeOrchestrator (fun _ _ => Except.ok [])
        (fun _ _ _ => Except.ok [("pdf", "bytes")]) ⟨"u", ["r"], "pdf", false⟩ =
        (⟨false, some "No recipes found", none, none⟩, ["GetRecipes"])
    ∧ "GenerateDocuments" ∉ (RecipeOrchestrator (fun _ _ => Except.ok [])
        (fun _ _ _ => Except.ok [("pdf", "bytes")])
        (⟨"u", ["r"], "pdf", false⟩ : OrchInput)).2 :=
  ⟨rfl,
   (orchestrator_short_circuits_on_empty (fun _ _ => Except.ok [])
     (fun _ _ _ => Except.ok [("pdf", "bytes")]) ⟨"u", ["r"], "pdf", false⟩ rfl).1,
   (orchestrator_short_circuits_on_empty (fun _ _ => Except.ok [])
     (fun _ _ _ => Except.ok [("pdf", "bytes")]) ⟨"u", ["r"], "pdf", false⟩ rfl).2⟩

/-- C7 (amended): for a request with a user id, a parseable body and a
non-empty recipe list, whose format value lower-cases to neither pdf nor
docx, the front door returns 400 with the format error message and does
not start the workflow; when format is absent it defaults to pdf and the
workflow starts with format pdf. The lower-casing (and the earlier
recipe-list check) are the corrections: a raw value such as PDF is neither
pdf nor docx yet is accepted. -/
theorem http_start_format_validation (uid : String) (b : ReqBody)
    (h1 : uid ≠ "") (h2 : b.recipe_names ≠ []) :
    (lower (b.format.getD "pdf") ≠ "pdf" → lower (b.format.getD "pdf") ≠ "docx" →
      http_start (some uid) (some b)
        = HttpStartResult.response 400 "Format must be either 'pdf' or 'docx'")
    ∧ (b.format = none →
      http_start (some uid) (some b)
        = HttpStartResult.started ⟨uid, b.recipe_names, "pdf", b.download⟩) := by
  have hne : b.recipe_names.isEmpty = false := by
    cases hb : b.recipe_names with
    | nil => exact absurd hb h2
    | cons a l => rfl
  constructor
  · intro hf1 hf2
    simp [http_start, h1, hne, hf1, hf2]
  · intro hf
    have hpdf : lower ((b.format.getD "pdf")) = "pdf" := by
      rw [hf]
      decide
    simp [http_start, h1, hne, hpdf]

/-- Witness for C7: format xml is rejected with the exact message; an
absent format starts the workflow as pdf. -/
theorem http_start_format_validation_witness :
    ("u" : String) ≠ "" ∧ (["r"] : List String) ≠ []
    ∧ lower ((some "xml").getD "pdf") ≠ "pdf" ∧ lower ((some "xml").getD "pdf") ≠ "docx"
    ∧ http_start (some "u") (some ⟨["r"], some "xml", false⟩)
        = HttpStartResult.response 400 "Format must be either 'pdf' or 'docx'"
    ∧ http_start (some "u") (some ⟨["r"], none, true⟩)
        = HttpStartResult.started ⟨"u", ["r"], "pdf", true⟩ :=
  ⟨by decide, by decide, by decide, by decide,
   (http_start_format_validation "u" ⟨["r"], some "xml", false⟩
     (by decide) (by decide)).1 (by decide) (by decide),
   (http_start_format_validation "u" ⟨["r"], none, true⟩
     (by decide) (by decide)).2 rfl⟩

/-- Counterexample to C7 as frozen: the body value PDF is neither the
string pdf nor the string docx, yet the front door lower-cases it and
starts the workflow instead of returning 400. -/
theorem http_start_uppercase_format_counterexample :
    ("PDF" : String) ≠ "pdf" ∧ ("PDF" : String) ≠ "docx"
    ∧ http_start (some "u") (some ⟨["r"], some "PDF", false⟩)
        = HttpStartResult.started ⟨"u", ["r"], "pdf", false⟩ :=
  ⟨by decide, by decide, by decide⟩

/-- C8: in every execution of the scratch phase of GenerateDocuments the
temporary directory is removed exactly once, as the last externally
visible action, after being created first, on the success path and on both
failure paths (render failure, file-read failure); and on any error path
the trace holds nothing beyond the directory lifecycle and the scratch
write inside it, the error propagating unchanged. -/
theorem generateDocuments_scratch_cleanup (fmt : String)
    (render : Except String Unit) (readRes : Except String String) :
    (GenerateDocumentsScratch fmt render readRes).1.count RunEvent.rmTemp = 1
    ∧ (GenerateDocumentsScratch fmt render readRes).1.getLast? = some RunEvent.rmTemp
    ∧ (GenerateDocumentsScratch fmt render readRes).1.head? = some RunEvent.mkTemp
    ∧ ∀ e : String, (GenerateDocumentsScratch fmt render readRes).2 = Except.error e →
        ((GenerateDocumentsScratch fmt render readRes).1
            = [RunEvent.mkTemp, RunEvent.rmTemp]
          ∨ (GenerateDocumentsScratch fmt render readRes).1
            = [RunEvent.mkTemp, RunEvent.writeDoc, RunEvent.rmTemp]) := by
  cases render with
  | error e =>
    refine ⟨rfl, rfl, rfl, ?_⟩
    intro e' _
    left
    rfl
  | ok u =>
    cases u
    cases readRes with
    | error e =>
      refine ⟨rfl, rfl, rfl, ?_⟩
      intro e' _
      right
      rfl
    | ok bytes =>
      refine ⟨rfl, rfl, rfl, ?_⟩
      intro e' he
      simp [GenerateDocumentsScratch, runWithCleanup, renderAndRead] at he

/-- Witness for C8 on the render-failure path. -/
theorem generateDocuments_scratch_cleanup_witness :
    (GenerateDocumentsScratch "pdf" (Except.error "render failed") (Except.ok "x")).1.count
        RunEvent.rmTemp = 1
    ∧ (GenerateDocumentsScratch "pdf" (Except.error "render failed")
        (Except.ok "x")).1.getLast? = some RunEvent.rmTemp
    ∧ (GenerateDocumentsScratch "pdf" (Except.error "render failed")
        (Except.ok "x")).1.head? = some RunEvent.mkTemp
    ∧ ((GenerateDocumentsScratch "pdf" (Except.error "render failed") (Except.ok "x")).2
          = Except.error "render failed"
       ∧ ((GenerateDocumentsScratch "pdf" (Except.error "render failed") (Except.ok "x")).1
            = [RunEvent.mkTemp, RunEvent.rmTemp]
          ∨ (GenerateDocumentsScratch "pdf" (Except.error "render failed") (Except.ok "x")).1
            = [RunEvent.mkTemp, RunEvent.writeDoc, RunEvent.rmTemp])) :=
  ⟨(generateDocuments_scratch_cleanup "pdf" (Except.error "render failed") (Except.ok "x")).1,
   (generateDocuments_scratch_cleanup "pdf" (Except.error "render failed") (Except.ok "x")).2.1,
   (generateDocuments_scratch_cleanup "pdf" (Except.error "render failed") (Except.ok "x")).2.2.1,
   rfl,
   (generateDocuments_scratch_cleanup "pdf" (Except.error "render failed")
     (Except.ok "x")).2.2.2 "render failed" rfl⟩

/-- C10: the Word generator keeps its document as instance state, so a
second create_recipe_docx call on the same instance saves a file that is
the first call content followed by the second call sections (every section
of the first call is still in it), while a fresh instance saves only its
own sections; the PDF generator method builds a local story, leaves the
instance unchanged, and its output depends on the call arguments alone
(it is the same for any two instances). -/
theorem word_state_accumulates_pdf_stateless (rs1 rs2 : List Recipe)
    (ais1 ais2 : List (Option AIInstructions)) :
    ((WordGenerator.init.create_recipe_docx rs1 ais1).1.create_recipe_docx rs2 ais2).2
      = (WordGenerator.init.create_recipe_docx rs1 ais1).2 ++ docxStory (rs2.zip ais2) 0
    ∧ (WordGenerator.init.create_recipe_docx rs2 ais2).2 = docxStory (rs2.zip ais2) 0
    ∧ (∀ g g' : PDFGenerator,
        (g.create_recipe_pdf rs1 ais1).2 = (g'.create_recipe_pdf rs1 ais1).2
        ∧ (g.create_recipe_pdf rs1 ais1).1 = g) := by
  refine ⟨?_, ?_, ?_⟩
  · simp [WordGenerator.create_recipe_docx, WordGenerator.init]
  · simp [WordGenerator.create_recipe_docx, WordGenerator.init]
  · intro g g'
    exact ⟨rfl, rfl⟩
